import Mathlib

/-
Verification development for the bandit-property-cleanout client scripts.

The repository holds two revisions of the same script file:
  src/unnamed/part_000  (current revision: quote estimator with add-on flags,
                         availability checker for the schedule form)
  src/script.js         (earlier revision: quote estimator only, base rate 0.50,
                         no flags, no availability checker)

JavaScript numbers are modelled as exact rationals (the quantities involved are
small decimal values, where double arithmetic agrees with exact arithmetic on
the scenarios of interest), with NaN modelled as `none`.  The multiplier
lookup `multipliers[type]` is a square-bracket read on an object literal, so
it consults the prototype chain: for a key inherited from Object.prototype
(toString, valueOf, constructor, ...) it yields a truthy non-number, the
`|| 1.0` fallback does not fire, and the arithmetic on that value produces
NaN.  Date and time component values flowing through the availability checker
are modelled as `Option ℤ`, with `none` standing for the JavaScript values
NaN and undefined, which behave identically in every operation the checker
performs on them (comparisons and strict equality are false, arithmetic
yields NaN again).
-/

/-- A value read out of the multiplier object literal by `multipliers[type]`:
either a number (an own entry, or the numeric fallback after `|| 1.0`), or
the truthy non-number (function or object) that the lookup finds on
Object.prototype. -/
inductive JsMult where
  | num : ℚ → JsMult
  | nonNum : JsMult

/-- The property keys an object literal inherits from Object.prototype: for
these, `multipliers[type]` yields a truthy non-number, so the `|| 1.0`
fallback does not fire. -/
def objectPrototypeKeys : List String :=
  ["constructor", "hasOwnProperty", "isPrototypeOf", "propertyIsEnumerable",
   "toLocaleString", "toString", "valueOf", "__proto__",
   "__defineGetter__", "__defineSetter__", "__lookupGetter__", "__lookupSetter__"]

/-- JavaScript addition of a number literal to a possibly-NaN number: NaN
absorbs. -/
def jsNumAdd (a : Option ℚ) (b : ℚ) : Option ℚ :=
  a.map (fun x => x + b)

/-- JavaScript equality (both == and ===) on two possibly-NaN numbers: false
whenever either side is NaN, the exact comparison on two numbers. -/
def jsNumEq : Option ℚ → Option ℚ → Bool
  | some a, some b => decide (a = b)
  | _, _ => false

namespace Part000

/-- Embedding of the multiplier lookup `multipliers[type] || 1.0` from
`calculateQuote` in src/unnamed/part_000.  The four own entries are truthy
numbers; a key inherited from Object.prototype yields a truthy non-number,
so the `|| 1.0` fallback does not fire for it; every other string yields
undefined and falls back to 1.0. -/
def multiplierFor (type : String) : JsMult :=
  if type = "residential" then JsMult.num 1.0
  else if type = "commercial" then JsMult.num 1.2
  else if type = "abandoned" then JsMult.num 1.5
  else if type = "construction" then JsMult.num 0.8
  else if type ∈ objectPrototypeKeys then JsMult.nonNum
  else JsMult.num 1.0

/-- Embedding of `calculateQuote(size, type, hasHazard = false, hasLawn = false)`
from src/unnamed/part_000 lines 59-78: base rate 2.50 per square foot,
property-type multiplier, flat fees of 50 (hazard) and 99 (lawn).  The
result is a possibly-NaN number: multiplying by a non-number multiplier
gives NaN, and the fee additions keep NaN. -/
def calculateQuote (size : ℚ) (type : String)
    (hasHazard : Bool := false) (hasLawn : Bool := false) : Option ℚ :=
  match multiplierFor type with
  | JsMult.nonNum => none
  | JsMult.num multiplier =>
    let baseRate : ℚ := 2.5
    let estimate := size * baseRate * multiplier
    let estimate := if hasHazard then estimate + 50 else estimate
    let estimate := if hasLawn then estimate + 99 else estimate
    some estimate

end Part000

namespace ScriptJs

/-- Embedding of the multiplier lookup `multipliers[type] || 1.0` from
`calculateQuote` in src/script.js (same table, and the same prototype-chain
behaviour, as the later revision). -/
def multiplierFor (type : String) : JsMult :=
  if type = "residential" then JsMult.num 1.0
  else if type = "commercial" then JsMult.num 1.2
  else if type = "abandoned" then JsMult.num 1.5
  else if type = "construction" then JsMult.num 0.8
  else if type ∈ objectPrototypeKeys then JsMult.nonNum
  else JsMult.num 1.0

/-- Embedding of `calculateQuote(size, type)` from src/script.js lines 59-69:
base rate 0.50 per square foot, property-type multiplier, no optional fees;
NaN (as `none`) at a non-number multiplier. -/
def calculateQuote (size : ℚ) (type : String) : Option ℚ :=
  match multiplierFor type with
  | JsMult.nonNum => none
  | JsMult.num multiplier =>
    let baseRate : ℚ := 0.50
    some (size * baseRate * multiplier)

end ScriptJs

namespace Part000

/-- A JavaScript number-or-absent value as it flows through
`isWithinAvailability`: `none` stands for NaN or undefined (which behave
identically in every operation the checker applies), `some n` for the
integer n.  All component values reaching the checker are integral. -/
abbrev JsNum := Option ℤ

/-- JavaScript `a < b` against a number literal: false when a is NaN or
undefined. -/
def jsLtN (a : JsNum) (b : ℤ) : Bool :=
  match a with
  | some x => decide (x < b)
  | none => false

/-- JavaScript `a > b` against a number literal: false when a is NaN or
undefined. -/
def jsGtN (a : JsNum) (b : ℤ) : Bool :=
  match a with
  | some x => decide (b < x)
  | none => false

/-- JavaScript `a === b` against a number literal: false when a is NaN or
undefined. -/
def jsEqN (a : JsNum) (b : ℤ) : Bool :=
  match a with
  | some x => decide (x = b)
  | none => false

/-- 1 in a leap year, 0 otherwise (ECMAScript DaysInYear rule: divisible by 4
and not by 100, or divisible by 400). -/
def leapDays (y : ℤ) : ℤ :=
  if (y % 4 = 0 ∧ y % 100 ≠ 0) ∨ y % 400 = 0 then 1 else 0

/-- ECMAScript DayFromYear: day number of 1 January of year y, with day 0 at
1970-01-01 (floor divisions; divisors are positive so `/` on ℤ is floor). -/
def dayFromYear (y : ℤ) : ℤ :=
  365 * (y - 1970) + (y - 1969) / 4 - (y - 1901) / 100 + (y - 1601) / 400

/-- Cumulative day count before month index mn (0 = January) in a non-leap
year, per the ECMAScript month table. -/
def monthStart (mn : ℤ) : ℤ :=
  if mn = 0 then 0 else if mn = 1 then 31 else if mn = 2 then 59
  else if mn = 3 then 90 else if mn = 4 then 120 else if mn = 5 then 151
  else if mn = 6 then 181 else if mn = 7 then 212 else if mn = 8 then 243
  else if mn = 9 then 273 else if mn = 10 then 304 else 334

/-- ECMAScript MakeDay: day number of (year, monthIndex, day), normalising an
out-of-range month index into the year and letting the day offset roll over
freely. -/
def makeDay (y m d : ℤ) : ℤ :=
  let ym := y + m / 12
  let mn := m % 12
  dayFromYear ym + monthStart mn + (if 2 ≤ mn then leapDays ym else 0) + (d - 1)

/-- The legacy two-digit-year rule of the Date constructor: a year argument
from 0 to 99 is interpreted as 1900 + year. -/
def jsYearCtor (y : ℤ) : ℤ :=
  if 0 ≤ y ∧ y ≤ 99 then 1900 + y else y

/-- Embedding of `new Date(year, monthIndex, day).getDay()`: NaN in any
component gives NaN, a day number beyond the ±100,000,000-day TimeClip range
gives NaN (Invalid Date), otherwise the weekday (Day + 4) modulo 7 with
0 = Sunday (1970-01-01, day 0, was a Thursday). -/
def newDateGetDay (y m d : JsNum) : JsNum :=
  match y, m, d with
  | some y, some m, some d =>
    let t := makeDay (jsYearCtor y) m d
    if t.natAbs ≤ 100000000 then some ((t + 4) % 7) else none
  | _, _, _ => none

/-- Embedding of `isWithinAvailability` from src/unnamed/part_000 lines
162-189, after the split-and-Number parsing step: guards on the weekday, the
hour window 8-17 and the exact 17:00 upper bound.  Missing list entries are
undefined; no expression on this path can throw, so the try/catch never
fires. -/
def isWithinAvailabilityParts (dateParts timeParts : List JsNum) : Bool :=
  let day := newDateGetDay (dateParts.getD 0 none)
    ((dateParts.getD 1 none).map (fun x => x - 1)) (dateParts.getD 2 none)
  let hour := timeParts.getD 0 none
  let minute := timeParts.getD 1 none
  if jsLtN day 1 || jsGtN day 5 then false
  else if jsLtN hour 8 || jsGtN hour 17 then false
  else if jsEqN hour 17 && jsGtN minute 0 then false
  else true

/-- JavaScript `String.prototype.split` with a one-character separator, on the
character list of the string. -/
def splitOnChar (sep : Char) : List Char → List (List Char)
  | [] => [[]]
  | c :: cs =>
    let rest := splitOnChar sep cs
    if c = sep then [] :: rest
    else
      match rest with
      | [] => [[c]]
      | r :: rs => (c :: r) :: rs

/-- Decimal value of a digit list. -/
def digitsToInt (cs : List Char) : ℤ :=
  cs.foldl (fun acc c => acc * 10 + ((c.toNat : ℤ) - 48)) 0

/-- JavaScript `Number()` on the string fragments arising here: the empty
string converts to 0, an all-digit string to its decimal value, and any
string holding a non-digit character to NaN.  (Sign, decimal-point, exponent,
hexadecimal and whitespace forms do not occur in date or time components and
are outside the modelled fragment.) -/
def jsNumber (cs : List Char) : JsNum :=
  if cs.isEmpty then some 0
  else if cs.all (fun c => c.isDigit) then some (digitsToInt cs)
  else none

/-- Embedding of `isWithinAvailability(dateStr, timeStr)`: split the date on
hyphens and the time on colons, convert each component with Number, then run
the guard chain. -/
def isWithinAvailability (dateStr timeStr : String) : Bool :=
  isWithinAvailabilityParts ((splitOnChar '-' dateStr.toList).map jsNumber)
    ((splitOnChar ':' timeStr.toList).map jsNumber)

/-- The calendar day-of-week of a proleptic Gregorian date (year, month 1-12,
day), stated independently of the Date embedding through the Zeller
congruence, re-encoded so that 0 = Sunday, ..., 6 = Saturday to match
getDay.  This is the reference meaning of weekday in the specification. -/
def calendarDayOfWeek (y m d : ℤ) : ℤ :=
  let mz := if m ≤ 2 then m + 12 else m
  let yz := if m ≤ 2 then y - 1 else y
  let K := yz % 100
  let J := yz / 100
  ((d + 13 * (mz + 1) / 5 + K + K / 4 + J / 4 + 5 * J) % 7 + 6) % 7

/-- Auxiliary finite check: the embedded weekday and the Zeller weekday agree
on the first of every month of a given year. -/
def checkYear (y : ℤ) : Bool :=
  (List.range 12).all fun mo =>
    decide ((makeDay y (mo : ℤ) 1 + 4) % 7 = calendarDayOfWeek y ((mo : ℤ) + 1) 1)

/-- Auxiliary finite check: `checkYear` over n consecutive years from y. -/
def checkFrom : ℤ → ℕ → Bool
  | _, 0 => true
  | y, n + 1 => checkYear y && checkFrom (y + 1) n

end Part000

/-- For a propertyType that is not a key inherited from Object.prototype,
the multiplier lookup yields a positive number. -/
theorem Part000.multiplierFor_num (type : String) (hp : type ∉ objectPrototypeKeys) :
    ∃ q : ℚ, Part000.multiplierFor type = JsMult.num q ∧ 0 < q := by
  unfold Part000.multiplierFor
  rw [if_neg hp]
  split_ifs with h1 h2 h3 h4
  · exact ⟨1.0, rfl, by norm_num⟩
  · exact ⟨1.2, rfl, by norm_num⟩
  · exact ⟨1.5, rfl, by norm_num⟩
  · exact ⟨0.8, rfl, by norm_num⟩
  · exact ⟨1.0, rfl, by norm_num⟩

/-- The two revisions read the same multiplier table the same way. -/
theorem multiplierFor_agree (type : String) :
    ScriptJs.multiplierFor type = Part000.multiplierFor type := rfl

/-- C1: for every size and every propertyType in the enumerated set,
`estimate(size, type, false, false)` equals `size * 2.5 * multiplier[type]`
with multipliers residential=1.0, commercial=1.2, abandoned=1.5,
construction=0.8. -/
theorem quote_base_rate_times_multiplier (size : ℚ) :
    Part000.calculateQuote size "residential" false false = some (size * 2.5 * 1.0) ∧
    Part000.calculateQuote size "commercial" false false = some (size * 2.5 * 1.2) ∧
    Part000.calculateQuote size "abandoned" false false = some (size * 2.5 * 1.5) ∧
    Part000.calculateQuote size "construction" false false = some (size * 2.5 * 0.8) := by
  refine ⟨?_, ?_, ?_, ?_⟩ <;>
    simp [Part000.calculateQuote, Part000.multiplierFor]

/-- C4 counterexample: at the inherited prototype key "toString" the quote
is NaN and the claimed surcharge equation fails under the JavaScript
equality of the claim (NaN == NaN + 50 is false). -/
theorem quote_flag_surcharge_fails_on_proto :
    jsNumEq (Part000.calculateQuote 1 "toString" true false)
      (jsNumAdd (Part000.calculateQuote 1 "toString" false false) 50) = false := by
  decide

/-- C4 amended: for every size and every propertyType that is not a key
inherited from Object.prototype, the hazard flag adds a flat 50 and the lawn
flag a flat 99, independently and additively; in particular
`estimate(500, "abandoned", true, true) = 2024`.  At an inherited prototype
key the estimate is NaN for every flag combination, and the claimed
equations fail. -/
theorem quote_flag_surcharges_additive (size : ℚ) (type : String)
    (hp : type ∉ objectPrototypeKeys) :
    Part000.calculateQuote size type true false =
      jsNumAdd (Part000.calculateQuote size type false false) 50 ∧
    Part000.calculateQuote size type false true =
      jsNumAdd (Part000.calculateQuote size type false false) 99 ∧
    Part000.calculateQuote size type true true =
      jsNumAdd (Part000.calculateQuote size type false false) 149 ∧
    Part000.calculateQuote 500 "abandoned" true true = some 2024 := by
  obtain ⟨q, hq, hqpos⟩ := Part000.multiplierFor_num type hp
  refine ⟨?_, ?_, ?_, ?_⟩
  · simp [Part000.calculateQuote, hq, jsNumAdd]
  · simp [Part000.calculateQuote, hq, jsNumAdd]
  · simp [Part000.calculateQuote, hq, jsNumAdd]
    ring
  · simp [Part000.calculateQuote, Part000.multiplierFor]
    norm_num

/-- Witness for the amended C4 at size = 2, type = "residential". -/
theorem quote_flag_surcharges_additive_witness :
    Part000.calculateQuote 2 "residential" true false =
      jsNumAdd (Part000.calculateQuote 2 "residential" false false) 50 :=
  (quote_flag_surcharges_additive 2 "residential" (by decide)).1

/-- C6 counterexample: at the out-of-set propertyType "toString" the lookup
finds the inherited truthy toString function, the fallback does not fire,
and the estimate is NaN instead of `size * 2.5 * 1.0`. -/
theorem quote_unknown_type_proto_nan :
    Part000.calculateQuote 4 "toString" false false = none ∧
    Part000.calculateQuote 4 "toString" false false ≠ some (4 * 2.5 * 1.0) := by
  decide

/-- C6 amended: a propertyType outside the enumerated set that is not a key
inherited from Object.prototype silently falls back to the neutral
multiplier 1.0, so the estimate is `size * 2.5`; at an inherited prototype
key the inherited value is truthy, the fallback does not fire, and the
estimate is NaN. -/
theorem quote_unknown_type_neutral (size : ℚ) (type : String)
    (h : type ∉ (["residential", "commercial", "abandoned", "construction"] : List String))
    (hp : type ∉ objectPrototypeKeys) :
    Part000.calculateQuote size type false false = some (size * 2.5 * 1.0) := by
  simp only [List.mem_cons, List.not_mem_nil, or_false, not_or] at h
  obtain ⟨h1, h2, h3, h4⟩ := h
  have hm : Part000.multiplierFor type = JsMult.num 1.0 := by
    unfold Part000.multiplierFor
    rw [if_neg h1, if_neg h2, if_neg h3, if_neg h4, if_neg hp]
  simp [Part000.calculateQuote, hm]

/-- Witness for the amended C6 at size = 4, type = "unknown-type". -/
theorem quote_unknown_type_neutral_witness :
    Part000.calculateQuote 4 "unknown-type" false false = some (4 * 2.5 * 1.0) :=
  quote_unknown_type_neutral 4 "unknown-type" (by decide) (by decide)

/-- C8 counterexample: the two revisions disagree on the flag-free interface
at size = 100, type = "residential" (script.js yields 50, part_000 yields 250). -/
theorem quote_revisions_disagree :
    ScriptJs.calculateQuote 100 "residential" ≠
      Part000.calculateQuote 100 "residential" false false := by
  simp [ScriptJs.calculateQuote, Part000.calculateQuote,
    ScriptJs.multiplierFor, Part000.multiplierFor]
  norm_num

/-- C8 amended: the two revisions are not equivalent on the flag-free
interface.  For every size and every propertyType that is not a key
inherited from Object.prototype, the part_000 amount is exactly five times
the script.js amount (base rate 2.50 versus 0.50 over the same table), and
the two amounts coincide exactly when size = 0.  At an inherited prototype
key both revisions yield NaN. -/
theorem quote_revisions_factor_five (size : ℚ) (type : String)
    (hp : type ∉ objectPrototypeKeys) :
    Part000.calculateQuote size type false false =
      (ScriptJs.calculateQuote size type).map (fun a => 5 * a) ∧
    (Part000.calculateQuote size type false false = ScriptJs.calculateQuote size type ↔
      size = 0) := by
  obtain ⟨q, hq, hqpos⟩ := Part000.multiplierFor_num type hp
  have hq2 : ScriptJs.multiplierFor type = JsMult.num q := by
    rw [multiplierFor_agree, hq]
  have e1 : Part000.calculateQuote size type false false = some (size * 2.5 * q) := by
    simp [Part000.calculateQuote, hq]
  have e2 : ScriptJs.calculateQuote size type = some (size * 0.50 * q) := by
    simp [ScriptJs.calculateQuote, hq2]
  rw [e1, e2]
  constructor
  · show some (size * 2.5 * q) = some (5 * (size * 0.50 * q))
    congr 1
    ring
  · constructor
    · intro h
      have h2 : size * 2.5 * q = size * 0.50 * q := Option.some.inj h
      have h3 : size * 2 * q = 0 := by linarith
      rcases mul_eq_zero.mp h3 with h4 | h4
      · rcases mul_eq_zero.mp h4 with h5 | h5
        · exact h5
        · norm_num at h5
      · exact absurd h4 (ne_of_gt hqpos)
    · intro h
      rw [h]
      norm_num

/-- Witness for the amended C8 at size = 100, type = "residential". -/
theorem quote_revisions_factor_five_witness :
    Part000.calculateQuote 100 "residential" false false =
      (ScriptJs.calculateQuote 100 "residential").map (fun a => 5 * a) :=
  (quote_revisions_factor_five 100 "residential" (by decide)).1

/-- C9 counterexample: at the inherited prototype key "toString" the
zero-size, both-flags estimate is NaN, not the numeric amount 149. -/
theorem quote_zero_size_proto_nan :
    Part000.calculateQuote 0 "toString" true true = none ∧
    Part000.calculateQuote 0 "toString" true true ≠ some 149 := by
  decide

/-- C9 amended: `calculateQuote` is total in the sense that every numeric
size (zero and negative included) and every type and flag combination yields
a result, but at a key inherited from Object.prototype that result is NaN
rather than a numeric amount; for every other propertyType the zero-size,
both-flags estimate is the bare surcharge total 149. -/
theorem quote_total_no_errors :
    (∀ (size : ℚ) (type : String) (hh hl : Bool),
      ∃ amount : Option ℚ, Part000.calculateQuote size type hh hl = amount) ∧
    (∀ type : String, type ∉ objectPrototypeKeys →
      Part000.calculateQuote 0 type true true = some 149) := by
  constructor
  · intro size type hh hl
    exact ⟨_, rfl⟩
  · intro type hp
    obtain ⟨q, hq, hqpos⟩ := Part000.multiplierFor_num type hp
    simp [Part000.calculateQuote, hq]
    norm_num

/-- Witness for the amended C9 at type = "residential". -/
theorem quote_total_no_errors_witness :
    Part000.calculateQuote 0 "residential" true true = some 149 :=
  quote_total_no_errors.2 "residential" (by decide)

namespace Part000

/-- The leap-year indicator is invariant under a 400-year shift. -/
theorem leapDays_shift (z : ℤ) : leapDays (z + 400) = leapDays z := by
  have h4 : (z + 400) % 4 = z % 4 := by omega
  have h100 : (z + 400) % 100 = z % 100 := by omega
  have h400 : (z + 400) % 400 = z % 400 := by omega
  unfold leapDays
  rw [h4, h100, h400]

/-- A 400-year shift moves the day number by exactly one Gregorian cycle of
146097 days. -/
theorem makeDay_shift (y m d : ℤ) : makeDay (y + 400) m d = makeDay y m d + 146097 := by
  have hym : y + 400 + m / 12 = (y + m / 12) + 400 := by ring
  unfold makeDay dayFromYear
  dsimp only
  rw [hym, leapDays_shift]
  omega

/-- The Zeller weekday is invariant under a 400-year shift. -/
theorem cdow_shift (y m d : ℤ) : calendarDayOfWeek (y + 400) m d = calendarDayOfWeek y m d := by
  unfold calendarDayOfWeek
  dsimp only
  split_ifs <;> omega

set_option maxRecDepth 10000 in
set_option maxHeartbeats 8000000 in
/-- Kernel evaluation of the finite check over one full 400-year Gregorian
cycle starting at 2000. -/
theorem check400 : checkFrom 2000 400 = true := by decide

theorem checkFrom_spec (y0 : ℤ) (n : ℕ) (h : checkFrom y0 n = true) :
    ∀ y : ℤ, y0 ≤ y → y < y0 + n → checkYear y = true := by
  induction n generalizing y0 with
  | zero =>
    intro y h1 h2
    simp at h2
    omega
  | succ k ih =>
    rw [checkFrom, Bool.and_eq_true] at h
    intro y h1 h2
    rcases eq_or_lt_of_le h1 with rfl | hlt
    · exact h.1
    · exact ih (y0 + 1) h.2 y (by omega) (by push_cast at h2 ⊢; omega)

theorem checkYear_spec (y : ℤ) (h : checkYear y = true) (m : ℤ)
    (hm1 : 1 ≤ m) (hm2 : m ≤ 12) :
    (makeDay y (m - 1) 1 + 4) % 7 = calendarDayOfWeek y m 1 := by
  rw [checkYear, List.all_eq_true] at h
  have hmem : (m - 1).toNat ∈ List.range 12 := by
    rw [List.mem_range]
    omega
  have hd := h _ hmem
  rw [decide_eq_true_eq] at hd
  have hc : ((m - 1).toNat : ℤ) = m - 1 := by omega
  rw [hc] at hd
  have hc2 : m - 1 + 1 = m := by ring
  rw [hc2] at hd
  exact hd

/-- The agreement on the first of a month extends to every day offset, since
both sides shift by one weekday per day. -/
theorem core_d (y m : ℤ)
    (h : (makeDay y (m - 1) 1 + 4) % 7 = calendarDayOfWeek y m 1) (d : ℤ) :
    (makeDay y (m - 1) d + 4) % 7 = calendarDayOfWeek y m d := by
  have hshift : makeDay y (m - 1) d = makeDay y (m - 1) 1 + (d - 1) := by
    unfold makeDay
    dsimp only
    ring
  rw [hshift]
  unfold calendarDayOfWeek at h ⊢
  dsimp only at h ⊢
  split_ifs at h ⊢ <;> omega

theorem core_shift_iff (m d : ℤ) (n : ℕ) (y : ℤ) :
    ((makeDay (y + 400 * n) (m - 1) d + 4) % 7 = calendarDayOfWeek (y + 400 * n) m d) ↔
      ((makeDay y (m - 1) d + 4) % 7 = calendarDayOfWeek y m d) := by
  induction n generalizing y with
  | zero => simp
  | succ k ih =>
    have h1 : y + 400 * ((k : ℤ) + 1) = (y + 400 * k) + 400 := by ring
    push_cast
    rw [h1, makeDay_shift, cdow_shift]
    have h2 : (makeDay (y + 400 * k) (m - 1) d + 146097 + 4) % 7 =
        (makeDay (y + 400 * k) (m - 1) d + 4) % 7 := by omega
    rw [h2]
    have h3 := ih y
    push_cast at h3
    exact h3

/-- For a valid calendar date with a four-digit year, the MakeDay day number
stays far inside the TimeClip range. -/
theorem makeDay_small (y m d : ℤ) (hy : 100 ≤ y) (hy2 : y ≤ 9999)
    (hm1 : 1 ≤ m) (hm2 : m ≤ 12) (hd1 : 1 ≤ d) (hd2 : d ≤ 31) :
    (makeDay y (m - 1) d).natAbs ≤ 100000000 := by
  have h0 : (m - 1) / 12 = 0 := by omega
  have h0b : (m - 1) % 12 = m - 1 := by omega
  have hms : 0 ≤ monthStart (m - 1) ∧ monthStart (m - 1) ≤ 334 := by
    interval_cases m <;> norm_num [monthStart]
  have hld : 0 ≤ leapDays (y + 0) ∧ leapDays (y + 0) ≤ 1 := by
    unfold leapDays
    split_ifs <;> omega
  have hdf : -690000 ≤ dayFromYear (y + 0) ∧ dayFromYear (y + 0) ≤ 2950000 := by
    unfold dayFromYear
    omega
  unfold makeDay
  dsimp only
  rw [h0, h0b]
  split_ifs <;> omega

/-- For every year and every month 1-12, the embedded MakeDay weekday equals
the Zeller weekday: the checked 400-year window transfers to all years by
periodicity. -/
theorem weekday_core (y m d : ℤ) (hm1 : 1 ≤ m) (hm2 : m ≤ 12) :
    (makeDay y (m - 1) d + 4) % 7 = calendarDayOfWeek y m d := by
  set t := (y - 2000) / 400 with ht
  have hr : 2000 ≤ y - 400 * t ∧ y - 400 * t ≤ 2399 := by omega
  have hwin : checkYear (y - 400 * t) = true :=
    checkFrom_spec 2000 400 check400 (y - 400 * t) (by omega) (by push_cast; omega)
  have hbase : (makeDay (y - 400 * t) (m - 1) d + 4) % 7 =
      calendarDayOfWeek (y - 400 * t) m d :=
    core_d (y - 400 * t) m (checkYear_spec _ hwin m hm1 hm2) d
  rcases le_or_lt 0 t with hpos | hneg
  · have hn : y = (y - 400 * t) + 400 * (t.toNat : ℤ) := by omega
    have hu := (core_shift_iff m d t.toNat (y - 400 * t)).mpr hbase
    rwa [← hn] at hu
  · have hn : y - 400 * t = y + 400 * ((-t).toNat : ℤ) := by omega
    rw [hn] at hbase
    exact (core_shift_iff m d (-t).toNat y).mp hbase

end Part000

/-- C2 (divergence witness): the checker does not fail closed on malformed
input.  On the Monday 2024-06-10 with the unparsable time "aa:bb", and on the
unparsable date "20x4-06-10" with the valid time 10:00, every NaN comparison
guard is false, so the checker answers true instead of the documented false. -/
theorem availability_malformed_input_accepted :
    Part000.isWithinAvailability "2024-06-10" "aa:bb" = true ∧
    Part000.isWithinAvailability "20x4-06-10" "10:00" = true := by
  decide

/-- C3: on a date whose computed weekday is Monday through Friday, a
well-formed time HH:MM is accepted exactly when it lies in the inclusive
window from 08:00 to 17:00 (in minutes since midnight). -/
theorem availability_weekday_window_iff (y m d h mi w : ℤ)
    (hw : Part000.newDateGetDay (some y) (some (m - 1)) (some d) = some w)
    (hw1 : 1 ≤ w) (hw5 : w ≤ 5)
    (hh0 : 0 ≤ h) (hh23 : h ≤ 23) (hm0 : 0 ≤ mi) (hm59 : mi ≤ 59) :
    Part000.isWithinAvailabilityParts [some y, some m, some d]
        [some h, some mi] = true ↔
      8 * 60 ≤ h * 60 + mi ∧ h * 60 + mi ≤ 17 * 60 := by
  have hmap : (some m).map (fun x => x - 1) = some (m - 1) := rfl
  simp only [Part000.isWithinAvailabilityParts, List.getD_cons_zero,
    List.getD_cons_succ, hmap, hw, Part000.jsLtN, Part000.jsGtN, Part000.jsEqN]
  split_ifs with h1 h2 h3 <;>
    simp_all <;> omega

/-- Witness for C3 on Monday 2024-06-10 at 10:30 (inside the window). -/
theorem availability_weekday_window_iff_witness :
    Part000.isWithinAvailabilityParts [some 2024, some 6, some 10]
      [some 10, some 30] = true :=
  (availability_weekday_window_iff 2024 6 10 10 30 1 (by decide) (by decide)
    (by decide) (by decide) (by decide) (by decide) (by decide)).mpr (by decide)

/-- C5: a date whose computed weekday is Saturday (6) or Sunday (0) is
rejected whatever the requested time components are. -/
theorem availability_weekend_rejected (y m d : ℤ) (timeParts : List Part000.JsNum)
    (hw : Part000.newDateGetDay (some y) (some (m - 1)) (some d) = some 0 ∨
          Part000.newDateGetDay (some y) (some (m - 1)) (some d) = some 6) :
    Part000.isWithinAvailabilityParts [some y, some m, some d] timeParts = false := by
  have hmap : (some m).map (fun x => x - 1) = some (m - 1) := rfl
  rcases hw with hw | hw <;>
    simp [Part000.isWithinAvailabilityParts, hmap, hw,
      Part000.jsLtN, Part000.jsGtN]

/-- Witness for C5 on Saturday 2024-06-08 at 10:00. -/
theorem availability_weekend_rejected_witness :
    Part000.isWithinAvailabilityParts [some 2024, some 6, some 8]
      [some 10, some 0] = false :=
  availability_weekend_rejected 2024 6 8 [some 10, some 0] (by decide)

/-- C10: only the first two colon-separated time components are consulted:
the verdict is invariant under any change of the components after hour and
minute, and concretely appending seconds as in 17:00:45 on Monday 2024-06-10
leaves the (accepting) verdict unchanged. -/
theorem availability_ignores_extra_time_components :
    (∀ (dateParts : List Part000.JsNum) (t0 t1 : Part000.JsNum)
        (r r' : List Part000.JsNum),
      Part000.isWithinAvailabilityParts dateParts (t0 :: t1 :: r) =
        Part000.isWithinAvailabilityParts dateParts (t0 :: t1 :: r')) ∧
    Part000.isWithinAvailability "2024-06-10" "17:00:45" =
      Part000.isWithinAvailability "2024-06-10" "17:00" ∧
    Part000.isWithinAvailability "2024-06-10" "17:00:45" = true := by
  refine ⟨fun dp t0 t1 r r' => rfl, by decide, by decide⟩

/-- C7 counterexample: for the syntactically valid date string 0099-01-01 the
Date constructor applies the two-digit-year rule (year 99 becomes 1999), so
the weekday used is Friday (5) while the calendar day-of-week of the literal
date 0099-01-01 is Thursday (4). -/
theorem weekday_two_digit_year_shift :
    Part000.newDateGetDay (some 99) (some (1 - 1)) (some 1) ≠
      some (Part000.calendarDayOfWeek 99 1 1) := by
  decide

/-- C7 amended: for every valid calendar date whose year component is at
least 100 (and at most 9999, as the four-digit YYYY field allows), the
weekday the checker uses is exactly the calendar day-of-week of the literal
(year, month, day) triple, with no shift of any kind; only years 0-99 are
remapped by the legacy 1900-offset rule. -/
theorem weekday_matches_calendar (y m d : ℤ)
    (hy : 100 ≤ y) (hy2 : y ≤ 9999) (hm1 : 1 ≤ m) (hm2 : m ≤ 12)
    (hd1 : 1 ≤ d) (hd2 : d ≤ 31) :
    Part000.newDateGetDay (some y) (some (m - 1)) (some d) =
      some (Part000.calendarDayOfWeek y m d) := by
  have hyc : Part000.jsYearCtor y = y := by
    unfold Part000.jsYearCtor
    rw [if_neg]
    omega
  have hclip : (Part000.makeDay y (m - 1) d).natAbs ≤ 100000000 :=
    Part000.makeDay_small y m d hy hy2 hm1 hm2 hd1 hd2
  simp only [Part000.newDateGetDay, hyc]
  rw [if_pos hclip]
  exact congrArg some (Part000.weekday_core y m d hm1 hm2)

/-- Witness for the amended C7 on 2024-06-10, whose weekday is Monday (1). -/
theorem weekday_matches_calendar_witness :
    Part000.newDateGetDay (some 2024) (some (6 - 1)) (some 10) =
      some (Part000.calendarDayOfWeek 2024 6 10) ∧
    Part000.calendarDayOfWeek 2024 6 10 = 1 :=
  ⟨weekday_matches_calendar 2024 6 10 (by decide) (by decide) (by decide)
    (by decide) (by decide) (by decide), by decide⟩
